import Mathlib

set_option maxRecDepth 8000

/-!
Verification of the reminder scheduling engine of the
thursday-notifications-service repository: the next-run computations
(calculateNextRun in scheduler.js, getDateFromSchedule in
messageHandler.js), the Redis-backed store (redis.js), and the per-entry
dispatch loop (processReminders in scheduler.js).

Modelling conventions of this shallow embedding:

* A luxon DateTime in the reminder's zone is modelled as a civil
  date/time (CivilDT).  All date arithmetic in the source is performed on
  the civil calendar of one fixed zone, so instants compare exactly as
  their civil fields do, lexicographically; daylight-saving transitions
  play no part in any property considered here (fixed-offset model).
* JavaScript null/undefined object fields are modelled with Option; the
  truthiness tests of the source (schedule.date, schedule.relativeMinutes)
  become Option.isSome and a non-zero test.
* A schedule's time field is modelled already split into the pair
  (hours, minutes) that the source obtains from the HH:MM string; none
  models the null time carried by relative schedules.  Likewise the date
  field is modelled as the (year, month, day) triple of the YYYY-MM-DD
  string.
* A thrown JavaScript exception is a distinguished result (JsDate.fault,
  CalcResult.fault); luxon's Invalid DateTime, which becomes an Invalid
  Date under toJSDate(), is the distinguished result JsDate.invalid
  respectively CalcResult.invalidDate.  luxon's fromObject rejects
  out-of-range units (such as day 0, or day 31 in a 30-day month) with an
  Invalid DateTime instead of rolling them over, and comparisons against
  an invalid value are false because its epoch value is NaN.
-/

/-- Leap-year test of the proleptic Gregorian calendar. -/
def isLeapYear (y : Nat) : Bool :=
  (y % 4 == 0 && y % 100 != 0) || y % 400 == 0

/-- Number of days of a month, months numbered 1 (January) to 12
(December). -/
def daysInMonth (y m : Nat) : Nat :=
  if m == 2 then (if isLeapYear y then 29 else 28)
  else if m == 4 || m == 6 || m == 9 || m == 11 then 30
  else 31

/-- Day of week of a civil date, 0 = Sunday through 6 = Saturday,
computed by Sakamoto's method. -/
def dowSun0 (y m d : Nat) : Nat :=
  let t := [0, 3, 2, 5, 0, 3, 5, 1, 4, 6, 2, 4]
  let y' := if m < 3 then y - 1 else y
  (y' + y' / 4 - y' / 100 + y' / 400 + t.getD (m - 1) 0 + d) % 7

/-- A civil date/time of the reminder's zone: the model of a luxon
DateTime under the fixed-offset convention described in the header. -/
structure CivilDT where
  year : Nat
  month : Nat
  day : Nat
  hour : Nat
  minute : Nat
  second : Nat
  ms : Nat
deriving DecidableEq, Repr

/-- Radix encoding of a civil date/time.  On the field ranges the source
ever compares (month at most 13, day at most 31, hour at most 23, minute
and second below 60, milliseconds below 1024) it orders exactly as the
epoch milliseconds of a fixed-offset zone, that is, lexicographically in
the civil fields. -/
def CivilDT.key (a : CivilDT) : Nat :=
  (((((a.year * 16 + a.month) * 64 + a.day) * 64 + a.hour) * 64
      + a.minute) * 64 + a.second) * 1024 + a.ms

/-- Strict comparison of two instants: luxon compares the epoch value. -/
def CivilDT.ltb (a b : CivilDT) : Bool := decide (a.key < b.key)

/-- Non-strict comparison of two instants. -/
def CivilDT.leb (a b : CivilDT) : Bool := decide (a.key ≤ b.key)

/-- The weekday accessor of luxon: 1 = Monday through 7 = Sunday. -/
def CivilDT.weekdayLuxon (a : CivilDT) : Nat :=
  let s := dowSun0 a.year a.month a.day
  if s == 0 then 7 else s

/-- Model of a luxon set call fixing hour and minute and zeroing second
and millisecond, for an in-range hour and minute. -/
def CivilDT.setHM (a : CivilDT) (h m : Nat) : CivilDT :=
  { a with hour := h, minute := m, second := 0, ms := 0 }

/-- The next calendar day at the same time of day. -/
def CivilDT.nextDay (a : CivilDT) : CivilDT :=
  if a.day < daysInMonth a.year a.month then { a with day := a.day + 1 }
  else if a.month < 12 then { a with month := a.month + 1, day := 1 }
  else { a with year := a.year + 1, month := 1, day := 1 }

/-- Model of a luxon plus call adding n calendar days. -/
def CivilDT.plusDays (a : CivilDT) : Nat → CivilDT
  | 0 => a
  | n + 1 => a.nextDay.plusDays n

/-- Model of a luxon plus call adding n minutes. -/
def CivilDT.plusMinutes (a : CivilDT) (n : Nat) : CivilDT :=
  let total := a.hour * 60 + a.minute + n
  ({ a with hour := total % 1440 / 60, minute := total % 60 }).plusDays (total / 1440)

/-- Model of luxon DateTime.fromObject over year, month, day, hour and
minute in a zone: a valid civil date/time, or none for the Invalid
DateTime that luxon produces for out-of-range units (it rejects, for
example, day 0, or day 31 in a 30-day month, rather than rolling over). -/
def fromObject (y m d h mi : Nat) : Option CivilDT :=
  if 1 ≤ m ∧ m ≤ 12 ∧ 1 ≤ d ∧ d ≤ daysInMonth y m ∧ h ≤ 23 ∧ mi ≤ 59 then
    some ⟨y, m, d, h, mi, 0, 0⟩
  else none

/-- The loosely-typed schedule record produced by the NLU layer
(analysis.schedule).  The time field is modelled already split into
(hours, minutes) with none for null; the date field as the
(year, month, day) triple with none for null. -/
structure Schedule where
  frequency : String
  time : Option (Nat × Nat)
  date : Option (Nat × Nat × Nat)
  dayOfWeek : Nat
  dayOfMonth : Nat
  daysOfWeek : List Nat
  isRelative : Bool
  relativeMinutes : Nat
deriving DecidableEq, Repr

/-- A stored reminder record: message, schedule, cached nextRun instant
(kept as the civil date/time of the reminder's zone under the
fixed-offset model), creation timestamp and timezone. -/
structure Reminder where
  message : String
  schedule : Schedule
  nextRun : CivilDT
  createdAt : Nat
  timezone : String
deriving DecidableEq, Repr

/-- Result of calculateNextRun in scheduler.js: null, a valid JS Date, an
Invalid Date (toJSDate of an invalid luxon value), or a thrown
exception. -/
inductive CalcResult where
  | null
  | valid (d : CivilDT)
  | invalidDate
  | fault
deriving DecidableEq, Repr

/-- Model of calculateNextRun(reminder) from scheduler.js, with the
current civil time of the reminder's zone passed explicitly.  The
monthly advance test keeps the JavaScript operator precedence of the
source: since the and-operator binds tighter than the or-operator, the
written condition parses as a disjunction of three clauses, the last of
which, comparing only hour and minute, is not guarded by the day
comparison. -/
def calculateNextRun (now : CivilDT) (r : Reminder) : CalcResult :=
  let schedule := r.schedule
  -- skip calculation for one-time reminders
  if schedule.frequency = "once" then .null
  else
    match schedule.time with
    | none => .fault   -- splitting a null time throws
    | some (hours, minutes) =>
      if hours ≤ 23 ∧ minutes ≤ 59 then
        if schedule.frequency = "daily" then
          let nextRun := now.setHM hours minutes
          if nextRun.leb now = true then .valid (nextRun.plusDays 1) else .valid nextRun
        else if schedule.frequency = "weekly" then
          let nextRun := now.setHM hours minutes
          let currentDay := now.weekdayLuxon % 7
          let targetDay := schedule.dayOfWeek
          -- targetDay - currentDay + 7, then modulo 7; currentDay is at
          -- most 6, so adding 7 before subtracting matches the source
          let daysUntil0 := (targetDay + 7 - currentDay) % 7
          let daysUntil := if daysUntil0 = 0 ∧ nextRun.leb now = true then 7 else daysUntil0
          .valid (nextRun.plusDays daysUntil)
        else if schedule.frequency = "monthly" then
          let targetMonth := now.month
          let targetYear := now.year
          let currentDate := now.day
          let advance :=
            currentDate > schedule.dayOfMonth
              ∨ (currentDate = schedule.dayOfMonth ∧ now.hour > hours)
              ∨ (now.hour = hours ∧ now.minute ≥ minutes)
          let tm0 := if advance then targetMonth + 1 else targetMonth
          let tm := if tm0 > 12 then 1 else tm0
          let ty := if tm0 > 12 then targetYear + 1 else targetYear
          match fromObject ty tm schedule.dayOfMonth hours minutes with
          | some d => .valid d
          | none =>
            -- fallback of the source: fromObject with the following
            -- month and day 0, intended as the last day of the previous
            -- month
            match fromObject ty (tm + 1) 0 hours minutes with
            | some d => .valid d
            | none => .invalidDate
        else .null   -- unknown frequency: logged, null returned
      else .invalidDate   -- out-of-range set call: invalid DateTime

/-- Result of getDateFromSchedule in messageHandler.js: null, a valid JS
Date, an Invalid Date, or a thrown exception. -/
inductive JsDate where
  | null
  | date (d : CivilDT)
  | invalid
  | fault
deriving DecidableEq, Repr

/-- Model of getDateFromSchedule(schedule, userTimezone) from
messageHandler.js, with the current civil time of the zone passed
explicitly.  The relative branch requires a truthy relativeMinutes; the
once branch requires a truthy date field; every recurring branch starts
from today at the scheduled time and only enters the frequency switch
when that instant is not after now. -/
def getDateFromSchedule (schedule : Schedule) (now : CivilDT) : JsDate :=
  if schedule.isRelative = true ∧ schedule.relativeMinutes ≠ 0 then
    .date (now.plusMinutes schedule.relativeMinutes)
  else if schedule.frequency = "once" ∧ schedule.date.isSome = true then
    match schedule.date, schedule.time with
    | some (year, month, day), some (hours, minutes) =>
      match fromObject year month day hours minutes with
      | some reminderDate =>
        -- verify it is in the future
        if reminderDate.leb now = true then .null else .date reminderDate
      | none => .invalid   -- invalid DateTime: comparisons are false, an Invalid Date is returned
    | _, none => .fault    -- splitting a null time throws
    | none, _ => .fault    -- unreachable: the guard requires a date
  else
    match schedule.time with
    | none => .fault       -- splitting a null time throws
    | some (hours, minutes) =>
      if hours ≤ 23 ∧ minutes ≤ 59 then
        let reminderDate := now.setHM hours minutes
        if reminderDate.leb now = true then
          if schedule.frequency = "daily" then .date (reminderDate.plusDays 1)
          else if schedule.frequency = "weekly" then
            let currentDay := now.weekdayLuxon % 7
            let daysUntil0 := (schedule.dayOfWeek + 7 - currentDay) % 7
            let daysUntil := if daysUntil0 = 0 then 7 else daysUntil0
            .date (reminderDate.plusDays daysUntil)
          else if schedule.frequency = "monthly" then
            let targetMonth := now.month
            let targetYear := now.year
            let advance :=
              now.day > schedule.dayOfMonth
                ∨ (now.day = schedule.dayOfMonth ∧ reminderDate.leb now = true)
            let tm0 := if advance then targetMonth + 1 else targetMonth
            let tm := if tm0 > 12 then 1 else tm0
            let ty := if tm0 > 12 then targetYear + 1 else targetYear
            match fromObject ty tm schedule.dayOfMonth hours minutes with
            | some d2 => .date d2
            | none =>
              match fromObject ty (tm + 1) 0 hours minutes with
              | some d2 => .date d2
              | none => .invalid
          else .date reminderDate   -- no matching switch case: unchanged
        else .date reminderDate
      else .invalid   -- out-of-range set call: invalid DateTime

/-- The Redis-backed store: the per-user hash of reminder records and the
sorted set reminder_schedule, both keyed here by the pair of userId and
reminderId.  The sorted-set score is the next-run instant, kept as a
civil date/time under the fixed-offset model. -/
structure Store where
  records : String × String → Option Reminder
  index : String × String → Option CivilDT

/-- The store with no reminders. -/
def emptyStore : Store := { records := fun _ => none, index := fun _ => none }

/-- Pointwise update of one key of a store map. -/
def setKey {α : Type} (f : String × String → Option α) (k : String × String)
    (v : Option α) : String × String → Option α :=
  fun k' => if k' = k then v else f k'

/-- Model of saveReminder(userId, reminder) from redis.js: the id is the
decimal string of the current clock milliseconds, the record is written
into the hash (an existing field is overwritten) and the index entry
into the sorted set (an existing member is rescored). -/
def saveReminder (st : Store) (userId : String) (nowMs : Nat) (reminder : Reminder) :
    Store × String :=
  let id := toString nowMs
  ({ records := setKey st.records (userId, id) (some reminder),
     index := setKey st.index (userId, id) (some reminder.nextRun) }, id)

/-- Model of updateReminderNextRun(userId, reminderId, nextRun, timezone)
from redis.js.  A missing record throws; otherwise the record's nextRun
(and, when a timezone is provided, its timezone) is rewritten and the
index entry is moved to the new score. -/
def updateReminderNextRun (st : Store) (userId reminderId : String)
    (nextRun : CivilDT) (timezone : Option String) : Except String (Store × Reminder) :=
  match st.records (userId, reminderId) with
  | none => .error "Reminder not found"
  | some reminder =>
    let reminder' := { reminder with
      nextRun := nextRun,
      timezone := match timezone with | some tz => tz | none => reminder.timezone }
    .ok ({ records := setKey st.records (userId, reminderId) (some reminder'),
           index := setKey st.index (userId, reminderId) (some nextRun) }, reminder')

/-- Model of deleteReminder(userId, reminderId) from redis.js: the hash
field and the sorted-set member are both removed. -/
def deleteReminder (st : Store) (userId reminderId : String) : Store :=
  { records := setKey st.records (userId, reminderId) none,
    index := setKey st.index (userId, reminderId) none }

/-- Consistency of the schedule index with the reminder records: an
index entry exists exactly for the stored reminders, and its score is
the record's nextRun instant. -/
def consistent (st : Store) : Prop :=
  ∀ k, st.index k = (st.records k).map (fun r => r.nextRun)

/-- The reminder-creation core of remindCommandHandler in
messageHandler.js: compute the first run with getDateFromSchedule; a
null or past result replies without saving; a thrown error, including
the RangeError that toISOString raises on the Invalid Date produced for
an unresolvable schedule, is caught by the surrounding try/catch, again
without saving; otherwise the reminder object is built, saved through
saveReminder, and its id returned. -/
def remindCreate (schedule : Schedule) (message chatId chatTimezone : String)
    (now : CivilDT) (nowMs : Nat) (st : Store) : Store × Option String :=
  match getDateFromSchedule schedule now with
  | .fault => (st, none)
  | .null => (st, none)
  | .invalid => (st, none)
  | .date nextRun =>
    if nextRun.ltb now = true then (st, none)
    else
      let reminder : Reminder :=
        { message := message, schedule := schedule, nextRun := nextRun,
          createdAt := nowMs, timezone := chatTimezone }
      let p := saveReminder st chatId nowMs reminder
      (p.1, some p.2)

/-- Default poll interval of the dispatch loop, in milliseconds
(SCHEDULER_CHECK_INTERVAL in config.js). -/
def SCHEDULER_CHECK_INTERVAL : Nat := 60000

/-- Retention of the processed-reminders dedup map, in milliseconds (the
ten-minute cleanup threshold of processReminders). -/
def dedupRetentionMs : Nat := 600000

/-- Dedup key of a due entry: chatId, reminderId and the one-minute
bucket of the current clock milliseconds, joined by colons. -/
def reminderKey (chatId reminderId : String) (currentTime : Nat) : String :=
  chatId ++ ":" ++ reminderId ++ ":" ++ toString (currentTime / 60000)

/-- State carried by the dispatch loop: the in-memory processedReminders
map from dedup key to recording timestamp, the store, and the log of
messages actually handed to the transport. -/
structure ProcState where
  dedup : List (String × Nat)
  store : Store
  sent : List (String × String)

/-- Cleanup step of the loop: drop processed records older than the
retention window. -/
def evictOld (m : List (String × Nat)) (currentTime : Nat) : List (String × Nat) :=
  m.filter (fun p => decide (currentTime - p.2 ≤ dedupRetentionMs))

/-- Delivery, recomputation and store update of one due entry, after the
dedup bookkeeping: deliverOk tells whether the transport send succeeds.
A rejected send throws before recomputation, so the store is untouched;
an Invalid Date next run throws inside updateReminderNextRun when it is
serialized, before any write; a missing record throws inside
updateReminderNextRun after the read.  Every throw lands in the
per-entry catch of the loop. -/
def processEntryCore (deliverOk : Bool) (now : CivilDT) (chatId reminderId : String)
    (reminder : Reminder) (store : Store) (sent : List (String × String)) :
    Store × List (String × String) :=
  if deliverOk then
    let sent' := (chatId, reminder.message) :: sent
    match calculateNextRun now reminder with
    | .valid nextRun =>
      match updateReminderNextRun store chatId reminderId nextRun (some reminder.timezone) with
      | .ok (store', _) => (store', sent')
      | .error _ => (store, sent')
    | .null => (deleteReminder store chatId reminderId, sent')
    | .invalidDate => (store, sent')
    | .fault => (store, sent')
  else (store, sent)

/-- Body of the per-entry loop of processReminders in scheduler.js: an
entry whose dedup key is already recorded is skipped; otherwise the key
is recorded, old records are evicted, and the entry is delivered and
rescheduled through processEntryCore. -/
def processEntry (deliverOk : Bool) (currentTime : Nat) (now : CivilDT)
    (chatId reminderId : String) (reminder : Reminder) (st : ProcState) : ProcState :=
  let key := reminderKey chatId reminderId currentTime
  if (st.dedup.lookup key).isSome = true then st
  else
    let dedup2 := evictOld ((key, currentTime) :: st.dedup) currentTime
    let p := processEntryCore deliverOk now chatId reminderId reminder st.store st.sent
    { dedup := dedup2, store := p.1, sent := p.2 }

/-- The dispatch loop over a batch of due entries; each tuple carries the
delivery outcome, the clock milliseconds and the civil now of its
processing instant, then the entry itself. -/
def processReminders (entries : List (Bool × Nat × CivilDT × String × String × Reminder))
    (st : ProcState) : ProcState :=
  entries.foldl
    (fun s e => match e with
      | (ok, t, n, c, i, r) => processEntry ok t n c i r s) st

/-- Weekly schedule for Wednesday at 23:00 (fixture). -/
def schedC1 : Schedule :=
  { frequency := "weekly", time := some (23, 0), date := none, dayOfWeek := 3,
    dayOfMonth := 0, daysOfWeek := [], isRelative := false, relativeMinutes := 0 }

/-- Monday 2024-01-01 at 10:00 (fixture). -/
def nowC1 : CivilDT := ⟨2024, 1, 1, 10, 0, 0, 0⟩

/-- Monthly schedule for day 31 at 09:00 (fixture). -/
def schedC2 : Schedule :=
  { frequency := "monthly", time := some (9, 0), date := none, dayOfWeek := 0,
    dayOfMonth := 31, daysOfWeek := [], isRelative := false, relativeMinutes := 0 }

/-- Reminder carrying the monthly day-31 schedule (fixture). -/
def remC2 : Reminder :=
  { message := "pay rent", schedule := schedC2, nextRun := ⟨2024, 3, 31, 9, 0, 0, 0⟩,
    createdAt := 0, timezone := "UTC" }

/-- Monday 2024-04-01 at 10:00, a 30-day month (fixture). -/
def nowC2 : CivilDT := ⟨2024, 4, 1, 10, 0, 0, 0⟩

/-- Daily schedule at 09:00 (fixture). -/
def schedC3 : Schedule :=
  { frequency := "daily", time := some (9, 0), date := none, dayOfWeek := 0,
    dayOfMonth := 0, daysOfWeek := [], isRelative := false, relativeMinutes := 0 }

/-- Daily reminder due at 2024-01-01 09:00 (fixture). -/
def remC3 : Reminder :=
  { message := "drink water", schedule := schedC3, nextRun := ⟨2024, 1, 1, 9, 0, 0, 0⟩,
    createdAt := 0, timezone := "UTC" }

/-- The clock 2024-01-01 09:05, five minutes past due (fixture). -/
def nowC3 : CivilDT := ⟨2024, 1, 1, 9, 5, 0, 0⟩

/-- Store holding remC3 under user 1 and id 10 (fixture). -/
def storeC3 : Store := (saveReminder emptyStore "1" 10 remC3).1

/-- Loop state holding storeC3, an empty dedup map and an empty delivery
log (fixture). -/
def procC3 : ProcState := { dedup := [], store := storeC3, sent := [] }

/-- Monthly schedule for day 20 at 09:00 (fixture). -/
def schedC4 : Schedule :=
  { frequency := "monthly", time := some (9, 0), date := none, dayOfWeek := 0,
    dayOfMonth := 20, daysOfWeek := [], isRelative := false, relativeMinutes := 0 }

/-- Reminder carrying the monthly day-20 schedule (fixture). -/
def remC4 : Reminder :=
  { message := "report", schedule := schedC4, nextRun := ⟨2024, 2, 20, 9, 0, 0, 0⟩,
    createdAt := 0, timezone := "UTC" }

/-- Tuesday 2024-03-05 at 09:30, fifteen days before the target day
(fixture). -/
def nowC4 : CivilDT := ⟨2024, 3, 5, 9, 30, 0, 0⟩

/-- Weekly schedule whose dayOfWeek 7 lies outside the valid range 0 to 6
(fixture). -/
def schedC5 : Schedule :=
  { frequency := "weekly", time := some (9, 0), date := none, dayOfWeek := 7,
    dayOfMonth := 0, daysOfWeek := [], isRelative := false, relativeMinutes := 0 }

/-- Monday 2024-01-01 at 08:00, before the scheduled time (fixture). -/
def nowC5 : CivilDT := ⟨2024, 1, 1, 8, 0, 0, 0⟩

/-- Once schedule for 2024-05-10 at 09:00 (fixture). -/
def schedC6 : Schedule :=
  { frequency := "once", time := some (9, 0), date := some (2024, 5, 10), dayOfWeek := 0,
    dayOfMonth := 0, daysOfWeek := [], isRelative := false, relativeMinutes := 0 }

/-- Reminder carrying the once schedule (fixture). -/
def remC6 : Reminder :=
  { message := "dentist", schedule := schedC6, nextRun := ⟨2024, 5, 10, 9, 0, 0, 0⟩,
    createdAt := 0, timezone := "UTC" }

/-- Wednesday 2024-05-01 at 08:00 (fixture). -/
def nowC6 : CivilDT := ⟨2024, 5, 1, 8, 0, 0, 0⟩

/-- Loop state with an empty store, dedup map and delivery log
(fixture). -/
def procC7 : ProcState := { dedup := [], store := storeC3, sent := [] }

/-- Loop state whose dedup map already records the key of user 1, id 10
at minute bucket 0 (fixture). -/
def procC7keyed : ProcState :=
  { dedup := [(reminderKey "1" "10" 30000, 0)], store := storeC3, sent := [] }

/-- First of the two colliding reminders (fixture). -/
def remC9a : Reminder :=
  { message := "first", schedule := schedC3, nextRun := ⟨2024, 1, 2, 9, 0, 0, 0⟩,
    createdAt := 0, timezone := "UTC" }

/-- Second of the two colliding reminders (fixture). -/
def remC9b : Reminder :=
  { message := "second", schedule := schedC3, nextRun := ⟨2024, 1, 2, 9, 0, 0, 0⟩,
    createdAt := 0, timezone := "UTC" }

/-- Relative schedule five minutes from creation (fixture). -/
def schedC10a : Schedule :=
  { frequency := "once", time := none, date := none, dayOfWeek := 0,
    dayOfMonth := 0, daysOfWeek := [], isRelative := true, relativeMinutes := 5 }

/-- Relative schedule zero minutes from creation, time and date null as
the NLU layer produces them (fixture). -/
def schedC10b : Schedule :=
  { frequency := "once", time := none, date := none, dayOfWeek := 0,
    dayOfMonth := 0, daysOfWeek := [], isRelative := true, relativeMinutes := 0 }

/-- Strictness is excluded by a failed non-strict comparison the other
way: the instant order is total. -/
theorem CivilDT.ltb_eq_false_of_leb_eq_false {a b : CivilDT}
    (h : a.leb b = false) : a.ltb b = false := by
  simp [CivilDT.leb] at h
  simp [CivilDT.ltb]
  omega

/-- Non-strict comparison is the negation of the reversed strict one. -/
theorem CivilDT.leb_eq_not_ltb (a b : CivilDT) : a.leb b = !(b.ltb a) := by
  by_cases h : a.key ≤ b.key
  all_goals simp [CivilDT.leb, CivilDT.ltb, h]
  all_goals omega

/-- A key recorded at the current instant survives the cleanup that
immediately follows its recording. -/
theorem lookup_evictOld_self (k : String) (t : Nat) (l : List (String × Nat)) :
    (evictOld ((k, t) :: l) t).lookup k = some t := by
  simp [evictOld, List.filter, List.lookup]

/-- C1: refuted at a concrete input.  For the Weekly schedule targeting
Wednesday (dayOfWeek 3) at 23:00, evaluated on Monday 2024-01-01 at
10:00, getDateFromSchedule keeps today's date, because its day-of-week
adjustment only runs when today's time has already passed: the computed
next run is Monday 2024-01-01 at 23:00, whose day-of-week is 1, not the
schedule's target day 3. -/
theorem C1_weekly_wrong_day :
    getDateFromSchedule schedC1 nowC1 = JsDate.date ⟨2024, 1, 1, 23, 0, 0, 0⟩
      ∧ CivilDT.weekdayLuxon ⟨2024, 1, 1, 23, 0, 0, 0⟩ % 7 = 1
      ∧ schedC1.dayOfWeek = 3 := by decide

/-- C2: refuted at a concrete input.  For the Monthly schedule on day 31
at 09:00, evaluated on 2024-04-01 at 10:00 inside the 30-day month
April, calculateNextRun does not clamp to April 30: its fallback builds
a DateTime from month 5 and day 0, which luxon rejects, so the result is
an Invalid Date rather than the last valid day of the month. -/
theorem C2_monthly_clamp_is_invalid :
    calculateNextRun nowC2 remC2 = CalcResult.invalidDate
      ∧ daysInMonth 2024 4 = 30
      ∧ remC2.schedule.dayOfMonth = 31 := by decide

/-- C4: refuted at a concrete input.  For the Monthly schedule on day 20
at 09:00, evaluated on 2024-03-05 at 09:30 - a day strictly before the
target day - calculateNextRun advances to April and returns
2024-04-20 09:00 instead of staying in March, because the clause
comparing only hour and minute fires independently of the day
comparison. -/
theorem C4_monthly_early_advance :
    calculateNextRun nowC4 remC4 = CalcResult.valid ⟨2024, 4, 20, 9, 0, 0, 0⟩
      ∧ nowC4.day < remC4.schedule.dayOfMonth
      ∧ nowC4.month = 3 := by decide

/-- C3: counterexample.  A due daily reminder whose delivery fails is
neither updated nor deleted: the per-entry catch swallows the send
failure before the recomputation runs, so the stored record keeps its
old nextRun even though recomputation would have produced the later
instant 2024-01-02 09:00. -/
theorem C3_failed_delivery_skips_reschedule :
    (processEntry false 0 nowC3 "1" "10" remC3 procC3).store.records ("1", "10") = some remC3
      ∧ calculateNextRun nowC3 remC3 = CalcResult.valid ⟨2024, 1, 2, 9, 0, 0, 0⟩
      ∧ remC3.nextRun ≠ ⟨2024, 1, 2, 9, 0, 0, 0⟩ := by decide

/-- C3 (amended): a failure of the delivery callback is caught by the
per-entry handler and the rescheduling step is skipped for that entry:
the store and the delivery log are left exactly as they were, so the
reminder is neither updated nor deleted and stays due. -/
theorem C3_amended_failure_skips_entry (currentTime : Nat) (now : CivilDT)
    (chatId reminderId : String) (reminder : Reminder) (st : ProcState) :
    (processEntry false currentTime now chatId reminderId reminder st).store = st.store
      ∧ (processEntry false currentTime now chatId reminderId reminder st).sent = st.sent := by
  unfold processEntry processEntryCore
  by_cases h : ((st.dedup.lookup (reminderKey chatId reminderId currentTime)).isSome = true)
  · simp [h]
  · simp [h]

/-- C9: refuted at a concrete input.  saveReminder derives the id from
the clock milliseconds alone, so two reminders stored for the same
owner in the same millisecond receive the same id and the second
overwrites the first record and index entry, contradicting the fresh-id
claim and the source's own comment promising a unique id. -/
theorem C9_same_millisecond_id_collision :
    (saveReminder emptyStore "1" 1700000 remC9a).2
        = (saveReminder (saveReminder emptyStore "1" 1700000 remC9a).1 "1" 1700000 remC9b).2
      ∧ (saveReminder (saveReminder emptyStore "1" 1700000 remC9a).1 "1" 1700000 remC9b).1.records
          ("1", (saveReminder emptyStore "1" 1700000 remC9a).2) = some remC9b
      ∧ remC9a ≠ remC9b := by decide

/-- C5: counterexample.  A weekly schedule whose dayOfWeek is 7, outside
the valid range 0 to 6, is accepted by the creation path: no validation
runs, the next-run computation succeeds, and a reminder is stored, so
construction does not fail with InvalidSchedule. -/
theorem C5_out_of_range_day_accepted :
    (remindCreate schedC5 "meeting" "1" "UTC" nowC5 1700000 emptyStore).2 = some "1700000"
      ∧ ((remindCreate schedC5 "meeting" "1" "UTC" nowC5 1700000 emptyStore).1.records
          ("1", "1700000")).isSome = true
      ∧ 6 < schedC5.dayOfWeek := by decide

/-- C5 (amended): the creation path performs no schedule validation: a
weekly schedule whose dayOfWeek lies outside the range 0 to 6, carrying
a valid time whose occurrence today is still ahead, is accepted and a
reminder is stored under the clock-derived id, rather than failing with
InvalidSchedule. -/
theorem C5_amended_no_validation (schedule : Schedule) (message chatId tz : String)
    (now : CivilDT) (nowMs : Nat) (st : Store) (h m : Nat)
    (_hdw : 6 < schedule.dayOfWeek)
    (hrel : schedule.isRelative = false)
    (hfreq : schedule.frequency = "weekly")
    (htime : schedule.time = some (h, m)) (hh : h ≤ 23) (hm : m ≤ 59)
    (hfut : (now.setHM h m).leb now = false) :
    (remindCreate schedule message chatId tz now nowMs st).2 = some (toString nowMs)
      ∧ ((remindCreate schedule message chatId tz now nowMs st).1.records
          (chatId, toString nowMs)).isSome = true := by
  have hg : getDateFromSchedule schedule now = JsDate.date (now.setHM h m) := by
    unfold getDateFromSchedule
    simp [hrel, hfreq, htime, hh, hm, hfut]
  have hlt : (now.setHM h m).ltb now = false := CivilDT.ltb_eq_false_of_leb_eq_false hfut
  unfold remindCreate
  rw [hg]
  simp [hlt, saveReminder, setKey]

/-- Witness for C5 (amended): the out-of-range weekly schedule of the
fixture is stored at a concrete creation instant. -/
theorem C5_amended_no_validation_witness :
    (remindCreate schedC5 "standup" "2" "UTC" nowC5 1800000 emptyStore).2
        = some (toString 1800000)
      ∧ ((remindCreate schedC5 "standup" "2" "UTC" nowC5 1800000 emptyStore).1.records
          ("2", toString 1800000)).isSome = true :=
  C5_amended_no_validation schedC5 "standup" "2" "UTC" nowC5 1800000 emptyStore 9 0
    (by decide) rfl rfl rfl (by decide) (by decide) (by decide)

/-- C6: for a Once schedule, getDateFromSchedule combines the date and
time in the reminder's zone and returns that instant exactly when it is
strictly after now, returning null otherwise - so a past instant yields
null idempotently - and calculateNextRun returns null for every once
schedule unconditionally, so an expired one-time schedule is never
auto-advanced to a future instant. -/
theorem C6_once_future_or_null :
    (∀ (schedule : Schedule) (now cd : CivilDT) (y mo d h mi : Nat),
        schedule.isRelative = false →
        schedule.frequency = "once" →
        schedule.date = some (y, mo, d) →
        schedule.time = some (h, mi) →
        fromObject y mo d h mi = some cd →
        getDateFromSchedule schedule now =
          (if now.ltb cd = true then JsDate.date cd else JsDate.null))
      ∧ (∀ (now : CivilDT) (r : Reminder), r.schedule.frequency = "once" →
          calculateNextRun now r = CalcResult.null) := by
  constructor
  · intro schedule now cd y mo d h mi hrel hfreq hdate htime hobj
    unfold getDateFromSchedule
    rw [hdate, htime]
    simp [hrel, hfreq, hobj, CivilDT.leb_eq_not_ltb]
    cases h2 : now.ltb cd <;> simp [h2]
  · intro now r hfreq
    unfold calculateNextRun
    simp [hfreq]

/-- Witness for C6: the concrete once schedule for 2024-05-10 09:00
evaluated on 2024-05-01 08:00, plus the null recomputation of the
corresponding reminder. -/
theorem C6_once_future_or_null_witness :
    getDateFromSchedule schedC6 nowC6 =
        (if nowC6.ltb ⟨2024, 5, 10, 9, 0, 0, 0⟩ = true then JsDate.date ⟨2024, 5, 10, 9, 0, 0, 0⟩
         else JsDate.null)
      ∧ calculateNextRun nowC6 remC6 = CalcResult.null :=
  ⟨C6_once_future_or_null.1 schedC6 nowC6 ⟨2024, 5, 10, 9, 0, 0, 0⟩ 2024 5 10 9 0
      rfl rfl rfl rfl (by decide),
   C6_once_future_or_null.2 nowC6 remC6 rfl⟩

/-- One due entry can add at most one message to the delivery log. -/
theorem processEntryCore_sent_length (ok : Bool) (now : CivilDT) (c i : String)
    (r : Reminder) (store : Store) (sent : List (String × String)) :
    (processEntryCore ok now c i r store sent).2.length ≤ sent.length + 1 := by
  unfold processEntryCore
  cases ok
  · simp
  · rw [if_pos rfl]
    split <;> first
      | (split <;> simp)
      | simp

/-- An entry whose dedup key is already recorded is skipped without any
effect. -/
theorem processEntry_skip (ok : Bool) (t : Nat) (n : CivilDT) (c i : String)
    (r : Reminder) (st : ProcState)
    (h : (st.dedup.lookup (reminderKey c i t)).isSome = true) :
    processEntry ok t n c i r st = st := by
  unfold processEntry
  simp [h]

/-- Processing an entry whose key was not yet recorded records it, and
the immediate cleanup does not evict it. -/
theorem processEntry_records_key (ok : Bool) (t : Nat) (n : CivilDT) (c i : String)
    (r : Reminder) (st : ProcState)
    (h : (st.dedup.lookup (reminderKey c i t)).isSome = false) :
    (processEntry ok t n c i r st).dedup.lookup (reminderKey c i t) = some t := by
  unfold processEntry
  simp [h, lookup_evictOld_self]

/-- One pass over one entry adds at most one delivered message. -/
theorem processEntry_sent_le (ok : Bool) (t : Nat) (n : CivilDT) (c i : String)
    (r : Reminder) (st : ProcState) :
    (processEntry ok t n c i r st).sent.length ≤ st.sent.length + 1 := by
  unfold processEntry
  by_cases h : (st.dedup.lookup (reminderKey c i t)).isSome = true
  · simp [h]
  · simp [h, processEntryCore_sent_length]

/-- C7: dedup behaviour of the dispatch loop.  First, presenting the
same due entry twice within the same one-minute bucket of the dedup key
delivers at most once.  Second, an entry whose dedup key is already
recorded in the in-memory window is skipped entirely.  Third, cleanup
evicts a recorded key only once it is older than the retention window,
which is ten times the default poll interval.  Fourth, after the window
a still-due entry fires again: in the concrete run two presentations of
the same due entry an hour apart are both delivered. -/
theorem C7_dedup_at_most_once :
    (∀ (ok1 ok2 : Bool) (t1 t2 : Nat) (n1 n2 : CivilDT) (c i : String)
        (r : Reminder) (st : ProcState),
        t1 / 60000 = t2 / 60000 →
        (processReminders [(ok1, t1, n1, c, i, r), (ok2, t2, n2, c, i, r)] st).sent.length
          ≤ st.sent.length + 1)
      ∧ (∀ (ok : Bool) (t : Nat) (n : CivilDT) (c i : String) (r : Reminder) (st : ProcState),
          (st.dedup.lookup (reminderKey c i t)).isSome = true →
          processEntry ok t n c i r st = st)
      ∧ (∀ (l : List (String × Nat)) (t : Nat) (k : String) (ts : Nat),
          (k, ts) ∈ l → t - ts ≤ dedupRetentionMs → (k, ts) ∈ evictOld l t)
      ∧ dedupRetentionMs = 10 * SCHEDULER_CHECK_INTERVAL
      ∧ (processReminders [(true, 0, nowC3, "1", "10", remC3),
            (true, 3600000, nowC3, "1", "10", remC3)] procC7).sent.length = 2 := by
  refine ⟨?_, processEntry_skip, ?_, rfl, by decide⟩
  · intro ok1 ok2 t1 t2 n1 n2 c i r st hb
    have hkey : reminderKey c i t2 = reminderKey c i t1 := by
      unfold reminderKey
      rw [hb]
    simp only [processReminders, List.foldl]
    by_cases h1 : (st.dedup.lookup (reminderKey c i t1)).isSome = true
    · rw [processEntry_skip ok1 t1 n1 c i r st h1]
      rw [processEntry_skip ok2 t2 n2 c i r st (by rw [hkey]; exact h1)]
      omega
    · have h1f : (st.dedup.lookup (reminderKey c i t1)).isSome = false :=
        Bool.eq_false_iff.mpr h1
      have hrec := processEntry_records_key ok1 t1 n1 c i r st h1f
      have h2 : ((processEntry ok1 t1 n1 c i r st).dedup.lookup (reminderKey c i t2)).isSome
          = true := by
        rw [hkey, hrec]
        rfl
      rw [processEntry_skip ok2 t2 n2 c i r _ h2]
      exact processEntry_sent_le ok1 t1 n1 c i r st
  · intro l t k ts hmem hage
    unfold evictOld
    exact List.mem_filter.mpr ⟨hmem, by simpa using hage⟩

/-- Witness for C7: two presentations of the same entry inside one
minute bucket deliver at most once; a keyed state is skipped; a
five-millisecond-old key survives cleanup at time 100. -/
theorem C7_dedup_at_most_once_witness :
    (processReminders [(true, 30000, nowC3, "1", "10", remC3),
        (true, 45000, nowC3, "1", "10", remC3)] procC7).sent.length
          ≤ procC7.sent.length + 1
      ∧ processEntry true 30000 nowC3 "1" "10" remC3 procC7keyed = procC7keyed
      ∧ ("k", 5) ∈ evictOld [("k", 5)] 100 :=
  ⟨C7_dedup_at_most_once.1 true true 30000 45000 nowC3 nowC3 "1" "10" remC3 procC7 (by decide),
   C7_dedup_at_most_once.2.1 true 30000 nowC3 "1" "10" remC3 procC7keyed (by decide),
   C7_dedup_at_most_once.2.2.1 [("k", 5)] 100 "k" 5 (by decide) (by decide)⟩

/-- C8: every store mutation keeps the schedule index consistent with
the reminder records: saveReminder and deleteReminder preserve the
consistency invariant, and a successful updateReminderNextRun preserves
it while moving the index entry of the updated reminder to the new
instant, which the rewritten record also carries. -/
theorem C8_store_mutations_keep_index_consistent (st : Store) (hc : consistent st)
    (userId reminderId : String) (nowMs : Nat) (r : Reminder)
    (nextRun : CivilDT) (tz : Option String) :
    consistent (saveReminder st userId nowMs r).1
      ∧ consistent (deleteReminder st userId reminderId)
      ∧ (∀ st' r', updateReminderNextRun st userId reminderId nextRun tz = .ok (st', r') →
          consistent st'
            ∧ st'.index (userId, reminderId) = some nextRun
            ∧ (st'.records (userId, reminderId)).map (fun q => q.nextRun) = some nextRun) := by
  refine ⟨?_, ?_, ?_⟩
  · intro k
    by_cases hk : k = (userId, toString nowMs) <;>
      simp [saveReminder, setKey, hk, hc k]
  · intro k
    by_cases hk : k = (userId, reminderId) <;>
      simp [deleteReminder, setKey, hk, hc k]
  · intro st' r' hup
    unfold updateReminderNextRun at hup
    cases hrec : st.records (userId, reminderId) with
    | none =>
      rw [hrec] at hup
      exact absurd hup (by simp)
    | some q =>
      rw [hrec] at hup
      simp only [Except.ok.injEq, Prod.mk.injEq] at hup
      obtain ⟨hst, hr⟩ := hup
      refine ⟨?_, ?_, ?_⟩
      · intro k
        by_cases hk : k = (userId, reminderId) <;>
          simp [← hst, setKey, hk, hc k]
      · simp [← hst, setKey]
      · simp [← hst, setKey]

/-- Witness for C8: consistency of the empty store is preserved by a
save and by a delete. -/
theorem C8_store_mutations_keep_index_consistent_witness :
    consistent (saveReminder emptyStore "1" 5 remC3).1
      ∧ consistent (deleteReminder emptyStore "1" "7") :=
  ⟨(C8_store_mutations_keep_index_consistent emptyStore (fun _ => rfl)
      "1" "7" 5 remC3 nowC3 none).1,
   (C8_store_mutations_keep_index_consistent emptyStore (fun _ => rfl)
      "1" "7" 5 remC3 nowC3 none).2.1⟩

/-- C10: the relative branch of getDateFromSchedule runs exactly when
relativeMinutes is truthy: with relativeMinutes at least one it returns
now plus that many minutes, while a relative schedule with
relativeMinutes zero - whose time and date fields are null as the NLU
layer produces them - falls through to the recurring code that splits
the null time, and the call faults instead of returning a date zero
minutes from creation. -/
theorem C10_relative_zero_minutes_faults :
    (∀ (schedule : Schedule) (now : CivilDT) (k : Nat),
        schedule.isRelative = true →
        schedule.relativeMinutes = k + 1 →
        getDateFromSchedule schedule now = JsDate.date (now.plusMinutes (k + 1)))
      ∧ (∀ (schedule : Schedule) (now : CivilDT),
        schedule.isRelative = true →
        schedule.relativeMinutes = 0 →
        schedule.date = none →
        schedule.time = none →
        getDateFromSchedule schedule now = JsDate.fault) := by
  constructor
  · intro schedule now k hrel hmin
    unfold getDateFromSchedule
    simp [hrel, hmin]
  · intro schedule now hrel hmin hdate htime
    unfold getDateFromSchedule
    rw [hdate, htime]
    simp [hrel, hmin, hdate, htime]

/-- Witness for C10: the five-minute relative schedule resolves to five
minutes past now, and the zero-minute relative schedule faults. -/
theorem C10_relative_zero_minutes_faults_witness :
    getDateFromSchedule schedC10a nowC6 = JsDate.date (nowC6.plusMinutes (4 + 1))
      ∧ getDateFromSchedule schedC10b nowC6 = JsDate.fault :=
  ⟨C10_relative_zero_minutes_faults.1 schedC10a nowC6 4 rfl rfl,
   C10_relative_zero_minutes_faults.2 schedC10b nowC6 rfl rfl rfl rfl⟩
